import Mathlib

/-!
Verification of `homeassistant/components/homekit_controller/media_player.py`
(the `HomeKitTelevision` entity): a shallow embedding of the adapter's data
model, derived properties (`state`, `source`, `source_list`), capability
setup callbacks and command handlers, together with theorems settling the
specification's claims about it.
-/

namespace HKTV

/-- A characteristic value, as the adapter sees it: HomeKit characteristics
used here carry either an unsigned integer or a string. -/
inductive Value
  | n (v : Nat)
  | s (v : String)
  deriving DecidableEq, Repr

/-- The characteristic types the entity declares interest in
(`get_characteristic_types`, media_player.py lines 68-79). -/
inductive CharType
  | active
  | current_media_state
  | target_media_state
  | remote_key
  | active_identifier
  | configured_name
  | identifier
  deriving DecidableEq, Repr

/-- A HomeKit service: instance id, service type, the instance id of the
service it is linked under (if any), and its characteristic values. -/
structure Service where
  iid : Nat
  stype : String
  parent : Option Nat
  chars : List (CharType × Value)
  deriving DecidableEq, Repr

/-- Read a characteristic from a service, `none` when it is absent.
Models the collaborator's `Service.value(type)`, which returns the default
`None` when the characteristic is not present. -/
def Service.value (svc : Service) (t : CharType) : Option Value :=
  (svc.chars.find? (fun p => p.fst == t)).map Prod.snd

/-- Python truthiness of a possibly-absent characteristic value: `None`,
`0` and the empty string are falsy (`if not active:` / `if not
active_identifier:` in the source). -/
def truthy : Option Value → Bool
  | none => false
  | some (.n v) => v != 0
  | some (.s v) => v != ""

/-- An accessory: the list of services in the accessory's enumeration
order (`this_accessory.services`). -/
structure Accessory where
  services : List Service
  deriving DecidableEq, Repr

/-- Service type string of input-source services (`ServicesTypes.INPUT_SOURCE`). -/
def INPUT_SOURCE : String := "input-source"

/-- Predicate used by the collaborator's `services.filter(service_type=...,
characteristics=..., parent_service=...)` (spec interface
`enumerateServices(filter)`): the service has the requested type, each
requested characteristic equals the requested value, and it is parented
under the given parent service. -/
def serviceMatches (stype : String) (cs : List (CharType × Value))
    (parentIid : Nat) (svc : Service) : Bool :=
  svc.stype == stype
    && cs.all (fun p => svc.value p.fst == some p.snd)
    && svc.parent == some parentIid

/-- `this_accessory.services.filter(...)`: all matching services, in the
accessory's enumeration order. -/
def Accessory.filterServices (acc : Accessory) (stype : String)
    (cs : List (CharType × Value)) (parent : Service) : List Service :=
  acc.services.filter (serviceMatches stype cs parent.iid)

/-- `this_accessory.services.first(...)`: the first matching service, or
`none` when nothing matches (the source's own
`if not input_source: raise ValueError(...)` in `async_select_source`
relies on this `None` result). -/
def Accessory.firstService (acc : Accessory) (stype : String)
    (cs : List (CharType × Value)) (parent : Service) : Option Service :=
  (acc.filterServices stype cs parent).head?

/-- Modelled from the spec: host-platform state constant `STATE_PROBLEM`
(`homeassistant/const.py`, not under src/). -/
def STATE_PROBLEM : String := "problem"

/-- Modelled from the spec: host-platform state constant `STATE_OK`. -/
def STATE_OK : String := "ok"

/-- Modelled from the spec: host-platform state constant `STATE_PLAYING`. -/
def STATE_PLAYING : String := "playing"

/-- Modelled from the spec: host-platform state constant `STATE_PAUSED`. -/
def STATE_PAUSED : String := "paused"

/-- Modelled from the spec: host-platform state constant `STATE_IDLE`. -/
def STATE_IDLE : String := "idle"

/-- Collaborator enum `CurrentMediaStateValues.PLAYING`. -/
def CMS_PLAYING : Nat := 0

/-- Collaborator enum `CurrentMediaStateValues.PAUSED`. -/
def CMS_PAUSED : Nat := 1

/-- Collaborator enum `CurrentMediaStateValues.STOPPED`. -/
def CMS_STOPPED : Nat := 2

/-- Collaborator enum `TargetMediaStateValues.PLAY`. -/
def TMS_PLAY : Nat := 0

/-- Collaborator enum `TargetMediaStateValues.PAUSE`. -/
def TMS_PAUSE : Nat := 1

/-- Collaborator enum `TargetMediaStateValues.STOP`. -/
def TMS_STOP : Nat := 2

/-- Collaborator enum `RemoteKeyValues.PLAY_PAUSE`. -/
def RK_PLAY_PAUSE : Nat := 11

/-- `HK_TO_HA_STATE` (media_player.py lines 34-38): the fixed dict from
current-media-state enum values to host-platform states. -/
def HK_TO_HA_STATE : List (Value × String) :=
  [ (.n CMS_PLAYING, STATE_PLAYING)
  , (.n CMS_PAUSED, STATE_PAUSED)
  , (.n CMS_STOPPED, STATE_IDLE) ]

/-- Python `dict.get(key, default)` over an association list. -/
def dictGet (d : List (Value × String)) (k : Value) (dflt : String) : String :=
  match d.find? (fun p => p.fst == k) with
  | some p => p.snd
  | none => dflt

/-- `HomeKitTelevision.state` (media_player.py lines 148-159): `problem`
when the active characteristic is falsy or absent; otherwise the dict
lookup of current-media-state with default `ok`, or `ok` when
current-media-state is absent. `tv` is `self.service`. -/
def state (tv : Service) : String :=
  if !truthy (tv.value .active) then STATE_PROBLEM
  else
    match tv.value .current_media_state with
    | some homekit_state => dictGet HK_TO_HA_STATE homekit_state STATE_OK
    | none => STATE_OK

/-- `HomeKitTelevision.source_list` (media_player.py lines 113-128):
the configured-name value of every input-source service parented under the
television, in enumeration order. `input_source[CONFIGURED_NAME]` raises
`KeyError` when a sibling lacks the characteristic, modelled as `.error`. -/
def source_list (acc : Accessory) (tv : Service) :
    Except String (List Value) :=
  (acc.filterServices INPUT_SOURCE [] tv).mapM
    (fun input_source =>
      match input_source.value .configured_name with
      | some v => .ok v
      | none => .error "KeyError: configured-name")

/-- `HomeKitTelevision.source` (media_player.py lines 130-146): `none` when
the active-identifier characteristic is falsy or absent; otherwise the
configured-name of the first input-source sibling whose identifier equals
it. When no sibling matches, `services.first` yields `None` and the
subscript `input_source[CONFIGURED_NAME]` raises `TypeError`, modelled as
`.error`. -/
def source (acc : Accessory) (tv : Service) : Except String (Option Value) :=
  match tv.value .active_identifier with
  | none => .ok none
  | some active_identifier =>
    if !truthy (some active_identifier) then .ok none
    else
      match acc.firstService INPUT_SOURCE [(.identifier, active_identifier)] tv with
      | none => .error "TypeError: NoneType is not subscriptable"
      | some input_source =>
        match input_source.value .configured_name with
        | some v => .ok (some v)
        | none => .error "KeyError: configured-name"

/-- Modelled from the spec: host-platform feature bit `SUPPORT_PAUSE`
(`media_player/const.py`, not under src/). -/
def SUPPORT_PAUSE : Nat := 1

/-- Modelled from the spec: host-platform feature bit `SUPPORT_SELECT_SOURCE`. -/
def SUPPORT_SELECT_SOURCE : Nat := 2048

/-- Modelled from the spec: host-platform feature bit `SUPPORT_STOP`. -/
def SUPPORT_STOP : Nat := 4096

/-- Modelled from the spec: host-platform feature bit `SUPPORT_PLAY`. -/
def SUPPORT_PLAY : Nat := 16384

/-- The adapter-owned mutable state (`__init__`, media_player.py lines
60-66) plus the log of characteristic writes handed to
`async_put_characteristics`, in order. -/
structure TVState where
  features : Nat
  supported_target_media_state : List Nat
  supported_remote_key : List Nat
  log : List (CharType × Value)
  deriving DecidableEq, Repr

/-- The freshly-initialised adapter state (`__init__`). -/
def initState : TVState :=
  { features := 0
  , supported_target_media_state := []
  , supported_remote_key := []
  , log := [] }

/-- `self.async_put_characteristics(map)`: the single transport write a
command issues, recorded on the write log. -/
def async_put_characteristics (m : TVState)
    (ws : List (CharType × Value)) : TVState :=
  { m with log := m.log ++ ws }

/-- `HomeKitTelevision.async_media_play` (media_player.py lines 161-174).
The body reads `self.state` and the capability sets and performs at most
one write; it assigns no adapter field. -/
def async_media_play (tv : Service) (m : TVState) : TVState :=
  if state tv == STATE_PLAYING then m
  else if m.supported_target_media_state.contains TMS_PLAY then
    async_put_characteristics m [(.target_media_state, .n TMS_PLAY)]
  else if m.supported_remote_key.contains RK_PLAY_PAUSE then
    async_put_characteristics m [(.remote_key, .n RK_PLAY_PAUSE)]
  else m

/-- `HomeKitTelevision.async_media_pause` (media_player.py lines 176-189). -/
def async_media_pause (tv : Service) (m : TVState) : TVState :=
  if state tv == STATE_PAUSED then m
  else if m.supported_target_media_state.contains TMS_PAUSE then
    async_put_characteristics m [(.target_media_state, .n TMS_PAUSE)]
  else if m.supported_remote_key.contains RK_PLAY_PAUSE then
    async_put_characteristics m [(.remote_key, .n RK_PLAY_PAUSE)]
  else m

/-- `HomeKitTelevision.async_media_stop` (media_player.py lines 191-200):
no remote-key fallback branch exists. -/
def async_media_stop (tv : Service) (m : TVState) : TVState :=
  if state tv == STATE_IDLE then m
  else if m.supported_target_media_state.contains TMS_STOP then
    async_put_characteristics m [(.target_media_state, .n TMS_STOP)]
  else m

/-- `HomeKitTelevision.async_select_source` (media_player.py lines
202-220). The second component is the raised exception, if any: the
`ValueError` when no input-source sibling has the given configured-name
(raised before any write), or a `KeyError` when the match lacks an
identifier characteristic; on success the single write of
active-identifier to the match's identifier value is logged. -/
def async_select_source (acc : Accessory) (tv : Service) (src : String)
    (m : TVState) : TVState × Option String :=
  match acc.firstService INPUT_SOURCE [(.configured_name, .s src)] tv with
  | none => (m, some ("Could not find source " ++ src))
  | some input_source =>
    match input_source.value .identifier with
    | none => (m, some "KeyError: identifier")
    | some identifier =>
      (async_put_characteristics m [(.active_identifier, identifier)], none)

/-- Metadata of an advertised characteristic, as used by the capability
setup: the optional list of valid values the accessory advertises. -/
structure CharMeta where
  valid_values : Option (List Nat)
  deriving DecidableEq, Repr

/-- Modelled from the spec: the collaborator utility `clamp_enum_to_char`
(`intersectAdvertisedEnum(knownEnumValues, characteristic)` in the spec's
interface list): the known enum value set intersected with the
characteristic's advertised value set, the full enum when the
characteristic advertises no restriction. -/
def clamp_enum_to_char (enumValues : List Nat) (char : CharMeta) :
    List Nat :=
  match char.valid_values with
  | some vv => enumValues.filter (fun v => vv.contains v)
  | none => enumValues

/-- The known `TargetMediaStateValues` enum {PLAY, PAUSE, STOP}. -/
def TargetMediaStateValues : List Nat := [TMS_PLAY, TMS_PAUSE, TMS_STOP]

/-- The known `RemoteKeyValues` enum of the collaborator library
(HomeKit remote-key values; PLAY_PAUSE = 11). -/
def RemoteKeyValues : List Nat :=
  [0, 1, 2, 3, 4, 5, 6, 7, 8, 9, 10, RK_PLAY_PAUSE, 15]

/-- `HomeKitTelevision._setup_active_identifier` (media_player.py lines
81-82). -/
def setup_active_identifier (m : TVState) : TVState :=
  { m with features := m.features ||| SUPPORT_SELECT_SOURCE }

/-- `HomeKitTelevision._setup_target_media_state` (media_player.py lines
84-96). -/
def setup_target_media_state (char : CharMeta) (m : TVState) : TVState :=
  let s := clamp_enum_to_char TargetMediaStateValues char
  let m := { m with supported_target_media_state := s }
  let m := if s.contains TMS_PAUSE then
      { m with features := m.features ||| SUPPORT_PAUSE } else m
  let m := if s.contains TMS_PLAY then
      { m with features := m.features ||| SUPPORT_PLAY } else m
  if s.contains TMS_STOP then
    { m with features := m.features ||| SUPPORT_STOP } else m

/-- `HomeKitTelevision._setup_remote_key` (media_player.py lines 98-101). -/
def setup_remote_key (char : CharMeta) (m : TVState) : TVState :=
  let s := clamp_enum_to_char RemoteKeyValues char
  let m := { m with supported_remote_key := s }
  if s.contains RK_PLAY_PAUSE then
    { m with features := m.features ||| (SUPPORT_PAUSE ||| SUPPORT_PLAY) }
  else m

/-- The characteristics relevant to capability setup that the accessory
advertises on the television service: `none` when absent. -/
structure SetupSnapshot where
  active_identifier : Option CharMeta
  target_media_state : Option CharMeta
  remote_key : Option CharMeta
  deriving DecidableEq, Repr

/-- Modelled from the spec: the entity base class's setup dispatch
(`HomeKitEntity` in `homekit_controller/__init__.py`, not under src/)
invokes each `_setup_<type>` callback exactly when the corresponding
characteristic is present on the service, starting from the
freshly-initialised adapter state. -/
def setup (s : SetupSnapshot) : TVState :=
  let m := initState
  let m := match s.active_identifier with
    | some _ => setup_active_identifier m
    | none => m
  let m := match s.target_media_state with
    | some c => setup_target_media_state c m
    | none => m
  match s.remote_key with
  | some c => setup_remote_key c m
  | none => m

/-- The intersected target-media-state set a snapshot yields (empty when
the characteristic is absent). -/
def tmsSet (s : SetupSnapshot) : List Nat :=
  match s.target_media_state with
  | some c => clamp_enum_to_char TargetMediaStateValues c
  | none => []

/-- The intersected remote-key set a snapshot yields (empty when the
characteristic is absent). -/
def rkSet (s : SetupSnapshot) : List Nat :=
  match s.remote_key with
  | some c => clamp_enum_to_char RemoteKeyValues c
  | none => []

/-- Whether a feature bit is set in the adapter's feature bitset. -/
def hasFlag (features flag : Nat) : Bool :=
  features &&& flag != 0

/-! Concrete fixture accessories used by witnesses and counterexamples. -/

/-- A television service that is active, currently PLAYING, with
active-identifier 3. -/
def exTvPlaying : Service :=
  { iid := 1, stype := "television", parent := none
  , chars := [(.active, .n 1), (.current_media_state, .n 0),
              (.active_identifier, .n 3)] }

/-- A television service whose active characteristic is 0 (falsy). -/
def exTvOff : Service :=
  { iid := 1, stype := "television", parent := none
  , chars := [(.active, .n 0), (.current_media_state, .n 0),
              (.active_identifier, .n 3)] }

/-- An input-source sibling parented under iid 1, named "HDMI 1",
identifier 3. -/
def exSrc : Service :=
  { iid := 6, stype := "input-source", parent := some 1
  , chars := [(.configured_name, .s "HDMI 1"), (.identifier, .n 3)] }

/-- An accessory holding the playing television and one input source. -/
def exAcc : Accessory := { services := [exTvPlaying, exSrc] }

/-- An accessory holding only the television, no input-source siblings. -/
def exAccBare : Accessory := { services := [exTvPlaying] }

/-! Theorems settling the claims. -/

/-- C1: for every characteristic snapshot, the state property is derived
as: if the active characteristic is falsy or absent, state is `problem`
regardless of current-media-state; otherwise, if current-media-state has a
value, PLAYING maps to `playing`, PAUSED to `paused`, STOPPED to `idle`,
and any other value to `ok`; if current-media-state is absent, state is
`ok`. -/
theorem c1_state_derivation (tv : Service) :
    (truthy (tv.value .active) = false → state tv = STATE_PROBLEM)
    ∧ (truthy (tv.value .active) = true →
        (∀ v, tv.value .current_media_state = some v →
          state tv =
            if v = .n CMS_PLAYING then STATE_PLAYING
            else if v = .n CMS_PAUSED then STATE_PAUSED
            else if v = .n CMS_STOPPED then STATE_IDLE
            else STATE_OK)
        ∧ (tv.value .current_media_state = none → state tv = STATE_OK)) := by
  refine ⟨fun h => by simp [state, h],
    fun h => ⟨fun v hv => ?_, fun hn => by simp [state, h, hn]⟩⟩
  simp only [state, h, Bool.not_true, Bool.false_eq_true, if_false, hv]
  rcases v with n | sv
  · rcases n with _ | _ | _ | n
    · rfl
    · rfl
    · rfl
    · have b0 : (Value.n 0 == Value.n (n + 3)) = false := by simp
      have b1 : (Value.n 1 == Value.n (n + 3)) = false := by simp
      have b2 : (Value.n 2 == Value.n (n + 3)) = false := by simp
      simp [dictGet, HK_TO_HA_STATE, List.find?, CMS_PLAYING, CMS_PAUSED,
        CMS_STOPPED, b0, b1, b2]
  · have b0 : (Value.n 0 == Value.s sv) = false := by simp
    have b1 : (Value.n 1 == Value.s sv) = false := by simp
    have b2 : (Value.n 2 == Value.s sv) = false := by simp
    simp [dictGet, HK_TO_HA_STATE, List.find?, CMS_PLAYING, CMS_PAUSED,
      CMS_STOPPED, b0, b1, b2]

/-- Closed instance of `c1_state_derivation` at concrete televisions. -/
theorem c1_state_derivation_witness :
    state exTvPlaying = STATE_PLAYING ∧ state exTvOff = STATE_PROBLEM := by
  constructor
  · have h := ((c1_state_derivation exTvPlaying).2 (by decide)).1
      (.n CMS_PLAYING) (by decide)
    simpa using h
  · exact (c1_state_derivation exTvOff).1 (by decide)

/-- C2, counterexample: a television with active-identifier 1 and no
input-source sibling matching it: the source property does not return
none — the sibling lookup yields no service and subscripting it raises,
modelled as an error result. -/
theorem c2_counterexample :
    exTvPlaying.value .active_identifier = some (.n 3)
    ∧ exAccBare.filterServices INPUT_SOURCE [(.identifier, .n 3)] exTvPlaying
        = []
    ∧ source exAccBare exTvPlaying
        = .error "TypeError: NoneType is not subscriptable" := by
  refine ⟨rfl, rfl, rfl⟩

/-- C2, amended: for every snapshot in which the active-identifier
characteristic is set to a non-zero value but no input-source sibling
parented under the television has an identifier equal to it, the source
property raises an error (a `TypeError` from subscripting the `None`
lookup result) rather than returning none. -/
theorem c2_source_raises_on_missing_sibling (acc : Accessory) (tv : Service)
    (n : Nat)
    (hai : tv.value .active_identifier = some (.n n)) (hn : n ≠ 0)
    (hmiss : acc.filterServices INPUT_SOURCE [(.identifier, .n n)] tv = []) :
    source acc tv = .error "TypeError: NoneType is not subscriptable" := by
  have ht : truthy (some (Value.n n)) = true := by
    simp [truthy, hn]
  simp [source, hai, ht, Accessory.firstService, hmiss]

/-- Closed instance of `c2_source_raises_on_missing_sibling`. -/
theorem c2_source_raises_witness :
    exTvPlaying.value .active_identifier = some (.n 3)
    ∧ (3 : Nat) ≠ 0
    ∧ exAccBare.filterServices INPUT_SOURCE [(.identifier, .n 3)] exTvPlaying
        = []
    ∧ source exAccBare exTvPlaying
        = .error "TypeError: NoneType is not subscriptable" :=
  ⟨rfl, by decide, rfl,
    c2_source_raises_on_missing_sibling exAccBare exTvPlaying 3 rfl
      (by decide) rfl⟩

/-- C3: select-source with a name no input-source sibling bears raises
the "Could not find source" error and issues no write; with exactly one
sibling whose configured-name equals the name, it writes
active-identifier to that sibling's identifier value. -/
theorem c3_select_source (acc : Accessory) (tv : Service) (src : String)
    (m : TVState) :
    (acc.filterServices INPUT_SOURCE [(.configured_name, .s src)] tv = [] →
      async_select_source acc tv src m
        = (m, some ("Could not find source " ++ src)))
    ∧ (∀ svc ident,
        acc.filterServices INPUT_SOURCE [(.configured_name, .s src)] tv
          = [svc] →
        svc.value .identifier = some ident →
        async_select_source acc tv src m
          = ({ m with log := m.log ++ [(.active_identifier, ident)] },
             none)) := by
  constructor
  · intro hmiss
    simp [async_select_source, Accessory.firstService, hmiss]
  · intro svc ident hone hid
    simp [async_select_source, Accessory.firstService, hone, hid,
      async_put_characteristics]

/-- Closed instance of `c3_select_source`: the missing name raises with
no write, the matching name writes active-identifier 3. -/
theorem c3_select_source_witness :
    (exAcc.filterServices INPUT_SOURCE [(.configured_name, .s "HDMI 2")]
        exTvPlaying = []
      ∧ async_select_source exAcc exTvPlaying "HDMI 2" initState
          = (initState, some "Could not find source HDMI 2"))
    ∧ (exAcc.filterServices INPUT_SOURCE [(.configured_name, .s "HDMI 1")]
        exTvPlaying = [exSrc]
      ∧ exSrc.value .identifier = some (.n 3)
      ∧ async_select_source exAcc exTvPlaying "HDMI 1" initState
          = ({ initState with log := [(.active_identifier, .n 3)] },
             none)) := by
  refine ⟨⟨rfl, ?_⟩, rfl, rfl, ?_⟩
  · exact (c3_select_source exAcc exTvPlaying "HDMI 2" initState).1 rfl
  · exact (c3_select_source exAcc exTvPlaying "HDMI 1" initState).2
      exSrc (.n 3) rfl rfl

/-- C4: play and pause each skip (no write) when the derived state already
equals their target state; otherwise they write target-media-state when
PLAY resp. PAUSE is supported, fall back to remote-key PLAY_PAUSE when it
is in the supported remote keys, and otherwise do nothing without
erroring. -/
theorem c4_play_pause_commands (tv : Service) (m : TVState) :
    ((state tv = STATE_PLAYING → async_media_play tv m = m)
    ∧ (state tv ≠ STATE_PLAYING →
        m.supported_target_media_state.contains TMS_PLAY = true →
        async_media_play tv m
          = { m with log := m.log ++ [(.target_media_state, .n TMS_PLAY)] })
    ∧ (state tv ≠ STATE_PLAYING →
        m.supported_target_media_state.contains TMS_PLAY = false →
        m.supported_remote_key.contains RK_PLAY_PAUSE = true →
        async_media_play tv m
          = { m with log := m.log ++ [(.remote_key, .n RK_PLAY_PAUSE)] })
    ∧ (state tv ≠ STATE_PLAYING →
        m.supported_target_media_state.contains TMS_PLAY = false →
        m.supported_remote_key.contains RK_PLAY_PAUSE = false →
        async_media_play tv m = m))
    ∧ ((state tv = STATE_PAUSED → async_media_pause tv m = m)
    ∧ (state tv ≠ STATE_PAUSED →
        m.supported_target_media_state.contains TMS_PAUSE = true →
        async_media_pause tv m
          = { m with log := m.log ++ [(.target_media_state, .n TMS_PAUSE)] })
    ∧ (state tv ≠ STATE_PAUSED →
        m.supported_target_media_state.contains TMS_PAUSE = false →
        m.supported_remote_key.contains RK_PLAY_PAUSE = true →
        async_media_pause tv m
          = { m with log := m.log ++ [(.remote_key, .n RK_PLAY_PAUSE)] })
    ∧ (state tv ≠ STATE_PAUSED →
        m.supported_target_media_state.contains TMS_PAUSE = false →
        m.supported_remote_key.contains RK_PLAY_PAUSE = false →
        async_media_pause tv m = m)) := by
  refine ⟨⟨fun h => ?_, fun h ht => ?_, fun h ht hr => ?_, fun h ht hr => ?_⟩,
    ⟨fun h => ?_, fun h ht => ?_, fun h ht hr => ?_, fun h ht hr => ?_⟩⟩
  · simp [async_media_play, h]
  · simp at ht
    simp [async_media_play, h, ht, async_put_characteristics]
  · simp at ht hr
    simp [async_media_play, h, ht, hr, async_put_characteristics]
  · simp at ht hr
    simp [async_media_play, h, ht, hr, async_put_characteristics]
  · simp [async_media_pause, h]
  · simp at ht
    simp [async_media_pause, h, ht, async_put_characteristics]
  · simp at ht hr
    simp [async_media_pause, h, ht, hr, async_put_characteristics]
  · simp at ht hr
    simp [async_media_pause, h, ht, hr, async_put_characteristics]

/-- Closed instance of `c4_play_pause_commands`: on a playing television,
play is a no-op; pause with PAUSE supported writes target-media-state. -/
theorem c4_play_pause_witness :
    (state exTvPlaying = STATE_PLAYING
      ∧ async_media_play exTvPlaying initState = initState)
    ∧ (state exTvPlaying ≠ STATE_PAUSED
      ∧ ([TMS_PLAY, TMS_PAUSE].contains TMS_PAUSE = true)
      ∧ async_media_pause exTvPlaying
          { initState with supported_target_media_state :=
              [TMS_PLAY, TMS_PAUSE] }
        = { initState with
            supported_target_media_state := [TMS_PLAY, TMS_PAUSE]
          , log := [(.target_media_state, .n TMS_PAUSE)] }) :=
  ⟨⟨rfl, (c4_play_pause_commands exTvPlaying initState).1.1 rfl⟩,
   ⟨by decide, by decide,
    (c4_play_pause_commands exTvPlaying
      { initState with supported_target_media_state :=
          [TMS_PLAY, TMS_PAUSE] }).2.2.1 (by decide) (by decide)⟩⟩

/-- C7: stop skips when the derived state is already `idle`; otherwise it
writes target-media-state=STOP exactly when STOP is supported, and issues
no write at all otherwise — there is no remote-key fallback. -/
theorem c7_stop_command (tv : Service) (m : TVState) :
    (state tv = STATE_IDLE → async_media_stop tv m = m)
    ∧ (state tv ≠ STATE_IDLE →
        m.supported_target_media_state.contains TMS_STOP = true →
        async_media_stop tv m
          = { m with log := m.log ++ [(.target_media_state, .n TMS_STOP)] })
    ∧ (state tv ≠ STATE_IDLE →
        m.supported_target_media_state.contains TMS_STOP = false →
        async_media_stop tv m = m) := by
  refine ⟨fun h => ?_, fun h ht => ?_, fun h ht => ?_⟩
  · simp [async_media_stop, h]
  · simp at ht
    simp [async_media_stop, h, ht, async_put_characteristics]
  · simp at ht
    simp [async_media_stop, h, ht, async_put_characteristics]

/-- Closed instance of `c7_stop_command`: on a playing television with
only the PLAY_PAUSE remote key and no STOP target-media-state support,
stop issues no write. -/
theorem c7_stop_command_witness :
    state exTvPlaying ≠ STATE_IDLE
    ∧ (([] : List Nat).contains TMS_STOP = false)
    ∧ async_media_stop exTvPlaying
        { initState with supported_remote_key := [RK_PLAY_PAUSE] }
      = { initState with supported_remote_key := [RK_PLAY_PAUSE] } :=
  ⟨by decide, by decide,
   (c7_stop_command exTvPlaying
     { initState with supported_remote_key := [RK_PLAY_PAUSE] }).2.2
     (by decide) (by decide)⟩

/-- C9: the four command handlers leave the capability state — the
feature bitset, the supported target-media-state set and the supported
remote-key set — unchanged; only the setup callbacks write them. -/
theorem c9_commands_preserve_capabilities (acc : Accessory) (tv : Service)
    (src : String) (m : TVState) :
    ((async_media_play tv m).features = m.features
      ∧ (async_media_play tv m).supported_target_media_state
          = m.supported_target_media_state
      ∧ (async_media_play tv m).supported_remote_key
          = m.supported_remote_key)
    ∧ ((async_media_pause tv m).features = m.features
      ∧ (async_media_pause tv m).supported_target_media_state
          = m.supported_target_media_state
      ∧ (async_media_pause tv m).supported_remote_key
          = m.supported_remote_key)
    ∧ ((async_media_stop tv m).features = m.features
      ∧ (async_media_stop tv m).supported_target_media_state
          = m.supported_target_media_state
      ∧ (async_media_stop tv m).supported_remote_key
          = m.supported_remote_key)
    ∧ ((async_select_source acc tv src m).1.features = m.features
      ∧ (async_select_source acc tv src m).1.supported_target_media_state
          = m.supported_target_media_state
      ∧ (async_select_source acc tv src m).1.supported_remote_key
          = m.supported_remote_key) := by
  refine ⟨?_, ?_, ?_, ?_⟩
  · unfold async_media_play async_put_characteristics
    repeat' split
    all_goals first | rfl | simp
  · unfold async_media_pause async_put_characteristics
    repeat' split
    all_goals first | rfl | simp
  · unfold async_media_stop async_put_characteristics
    repeat' split
    all_goals first | rfl | simp
  · unfold async_select_source async_put_characteristics
    repeat' split
    all_goals first | rfl | simp

/-- C10: when the active characteristic is falsy the derived state is
`problem`, which is none of `playing`, `paused`, `idle`, so the skip
guards of play, pause and stop do not fire: with the corresponding
target-media-state capability present, each command still issues its
write. -/
theorem c10_problem_state_commands_still_write (tv : Service) (m : TVState)
    (h : truthy (tv.value .active) = false) :
    state tv = STATE_PROBLEM
    ∧ (m.supported_target_media_state.contains TMS_PLAY = true →
        async_media_play tv m
          = { m with log := m.log ++ [(.target_media_state, .n TMS_PLAY)] })
    ∧ (m.supported_target_media_state.contains TMS_PAUSE = true →
        async_media_pause tv m
          = { m with log := m.log ++ [(.target_media_state, .n TMS_PAUSE)] })
    ∧ (m.supported_target_media_state.contains TMS_STOP = true →
        async_media_stop tv m
          = { m with log := m.log ++ [(.target_media_state, .n TMS_STOP)] }) := by
  have hs : state tv = STATE_PROBLEM := by simp [state, h]
  refine ⟨hs, fun ht => ?_, fun ht => ?_, fun ht => ?_⟩
  · simp at ht
    simp [async_media_play, hs, ht, async_put_characteristics,
      STATE_PROBLEM, STATE_PLAYING]
  · simp at ht
    simp [async_media_pause, hs, ht, async_put_characteristics,
      STATE_PROBLEM, STATE_PAUSED]
  · simp at ht
    simp [async_media_stop, hs, ht, async_put_characteristics,
      STATE_PROBLEM, STATE_IDLE]

/-- Closed instance of `c10_problem_state_commands_still_write`: an
inactive television with STOP supported still gets the stop write. -/
theorem c10_problem_state_witness :
    truthy (exTvOff.value .active) = false
    ∧ state exTvOff = STATE_PROBLEM
    ∧ ([TMS_STOP].contains TMS_STOP = true)
    ∧ async_media_stop exTvOff
        { initState with supported_target_media_state := [TMS_STOP] }
      = { initState with
            supported_target_media_state := [TMS_STOP]
          , log := [(.target_media_state, .n TMS_STOP)] } :=
  ⟨rfl,
   (c10_problem_state_commands_still_write exTvOff
     { initState with supported_target_media_state := [TMS_STOP] } rfl).1,
   by decide,
   (c10_problem_state_commands_still_write exTvOff
     { initState with supported_target_media_state := [TMS_STOP] }
     rfl).2.2.2 (by decide)⟩

/-- C6: the source property returns none when the active-identifier
characteristic is absent or zero; when it is a non-zero value and exactly
one input-source sibling parented under the television has an identifier
equal to it, it returns that sibling's configured-name value. -/
theorem c6_current_source (acc : Accessory) (tv : Service) :
    (tv.value .active_identifier = none → source acc tv = .ok none)
    ∧ (tv.value .active_identifier = some (.n 0) → source acc tv = .ok none)
    ∧ (∀ n svc name,
        tv.value .active_identifier = some (.n n) → n ≠ 0 →
        acc.filterServices INPUT_SOURCE [(.identifier, .n n)] tv = [svc] →
        svc.value .configured_name = some name →
        source acc tv = .ok (some name)) := by
  refine ⟨fun h => by simp [source, h],
    fun h => by simp [source, h, truthy],
    fun n svc name hai hn hone hname => ?_⟩
  have ht : truthy (some (Value.n n)) = true := by simp [truthy, hn]
  simp [source, hai, ht, Accessory.firstService, hone, hname]

/-- Closed instance of `c6_current_source`: active-identifier 3 resolves
to the sibling named "HDMI 1". -/
theorem c6_current_source_witness :
    exTvPlaying.value .active_identifier = some (.n 3)
    ∧ (3 : Nat) ≠ 0
    ∧ exAcc.filterServices INPUT_SOURCE [(.identifier, .n 3)] exTvPlaying
        = [exSrc]
    ∧ exSrc.value .configured_name = some (.s "HDMI 1")
    ∧ source exAcc exTvPlaying = .ok (some (.s "HDMI 1")) :=
  ⟨rfl, by decide, rfl, rfl,
    (c6_current_source exAcc exTvPlaying).2.2 3 exSrc (.s "HDMI 1") rfl
      (by decide) rfl rfl⟩

/-- Helper for C8: mapping the configured-name read over a list of
services succeeds with one value per service, in order, when every
service has the characteristic. -/
theorem mapM_configured_names (ss : List Service)
    (h : ∀ svc ∈ ss, (svc.value .configured_name).isSome = true) :
    ∃ l, (ss.mapM (fun input_source =>
        match input_source.value .configured_name with
        | some v => Except.ok v
        | none => Except.error "KeyError: configured-name")
          : Except String (List Value)) = .ok l
      ∧ List.Forall₂ (fun svc v => svc.value .configured_name = some v)
          ss l := by
  induction ss with
  | nil => exact ⟨[], rfl, .nil⟩
  | cons a as ih =>
    obtain ⟨va, hva⟩ := Option.isSome_iff_exists.mp (h a (by simp))
    obtain ⟨l, hl, hf⟩ := ih (fun svc hs => h svc (by simp [hs]))
    refine ⟨va :: l, ?_, .cons hva hf⟩
    rw [List.mapM_cons, hva, hl]
    rfl

/-- C8: when every input-source sibling parented under the television has
a configured-name characteristic, sourceList returns exactly those values
in the accessory's enumeration order, so its length equals the number of
such siblings. -/
theorem c8_source_list (acc : Accessory) (tv : Service)
    (h : ∀ svc ∈ acc.filterServices INPUT_SOURCE [] tv,
        (svc.value .configured_name).isSome = true) :
    ∃ l, source_list acc tv = .ok l
      ∧ List.Forall₂ (fun svc v => svc.value .configured_name = some v)
          (acc.filterServices INPUT_SOURCE [] tv) l
      ∧ l.length = (acc.filterServices INPUT_SOURCE [] tv).length := by
  obtain ⟨l, hl, hf⟩ :=
    mapM_configured_names (acc.filterServices INPUT_SOURCE [] tv) h
  exact ⟨l, hl, hf, hf.length_eq.symm⟩

/-- Closed instance of `c8_source_list` on a one-source accessory. -/
theorem c8_source_list_witness :
    (∀ svc ∈ exAcc.filterServices INPUT_SOURCE [] exTvPlaying,
        (svc.value .configured_name).isSome = true)
    ∧ ∃ l, source_list exAcc exTvPlaying = .ok l
        ∧ List.Forall₂ (fun svc v => svc.value .configured_name = some v)
            (exAcc.filterServices INPUT_SOURCE [] exTvPlaying) l
        ∧ l.length
            = (exAcc.filterServices INPUT_SOURCE [] exTvPlaying).length :=
  ⟨by decide, c8_source_list exAcc exTvPlaying (by decide)⟩

/-- C5: after the setup callbacks run on a snapshot of advertised
characteristics, the select-source flag is set iff active-identifier is
present; the stop flag is set iff STOP is in the intersected
target-media-state set; and the play and pause flags are set exactly for
the corresponding intersected target-media-state values, plus both when
PLAY_PAUSE is in the intersected remote-key set. -/
theorem c5_setup_capabilities (s : SetupSnapshot) :
    (setup s).supported_target_media_state = tmsSet s
    ∧ (setup s).supported_remote_key = rkSet s
    ∧ hasFlag (setup s).features SUPPORT_SELECT_SOURCE
        = s.active_identifier.isSome
    ∧ hasFlag (setup s).features SUPPORT_STOP = (tmsSet s).contains TMS_STOP
    ∧ hasFlag (setup s).features SUPPORT_PLAY
        = ((tmsSet s).contains TMS_PLAY || (rkSet s).contains RK_PLAY_PAUSE)
    ∧ hasFlag (setup s).features SUPPORT_PAUSE
        = ((tmsSet s).contains TMS_PAUSE
            || (rkSet s).contains RK_PLAY_PAUSE) := by
  obtain ⟨ai, tms, rk⟩ := s
  rcases ai with _ | a <;> rcases tms with _ | c <;> rcases rk with _ | c2 <;>
    simp only [setup, setup_active_identifier, setup_target_media_state,
      setup_remote_key, tmsSet, rkSet, initState, Option.isSome]
  all_goals first
  | (cases h2 : (clamp_enum_to_char RemoteKeyValues c2).contains RK_PLAY_PAUSE <;>
     cases h0 : (clamp_enum_to_char TargetMediaStateValues c).contains TMS_PLAY <;>
     cases h1 : (clamp_enum_to_char TargetMediaStateValues c).contains TMS_PAUSE <;>
     cases h3 : (clamp_enum_to_char TargetMediaStateValues c).contains TMS_STOP <;>
     simp [h0, h1, h2, h3, hasFlag])
  | (cases h2 : (clamp_enum_to_char RemoteKeyValues c2).contains RK_PLAY_PAUSE <;>
     simp [h2, hasFlag])
  | (cases h0 : (clamp_enum_to_char TargetMediaStateValues c).contains TMS_PLAY <;>
     cases h1 : (clamp_enum_to_char TargetMediaStateValues c).contains TMS_PAUSE <;>
     cases h3 : (clamp_enum_to_char TargetMediaStateValues c).contains TMS_STOP <;>
     simp [h0, h1, h3, hasFlag])
  | simp [hasFlag]
  all_goals decide

end HKTV
